import Mathlib

/-!
Shallow embedding of the Wan video-generation service
(repository `chenyu139/Wan`), covering:

* `src/src/wan_video_api/models/wan_model.py` — `ImageProcessor`,
  `WanVideoModel` (engine state, `is_loaded`, `generate_video`);
* `src/src/wan_video_api/api/routes.py` — the open route handlers;
* `src/src/gczm_ti_to_video/api/routes.py` — the authenticated variant
  (`verify_api_token` and the per-route auth dependency);
* `src/src/gczm_ti_to_video/utils/file_utils.py` — `validate_image_file`,
  `list_output_files`;
* `src/src/wan_video_api/core/config.py` — `Settings`;
* `src/scripts/start_server.py` — preflight checks and launcher exit codes.

Machine integers are modelled as `Nat`; Python floats that carry request
parameters (`guidance_scale`, file timestamps) are modelled as `Rat`.
The floating-point scale computation of the image preprocessor is modelled
in exact real arithmetic (see `scaledDim` and its bridge lemma).
Fallible Python code (raising `ValueError` / `RuntimeError` / HTTP errors)
is modelled with `Except`.  Calls into the opaque external diffusion
pipeline are recorded in an explicit trace (`List PipelineArgs`) so that
"the pipeline was never invoked" is a provable statement.
-/

/-- Python truthiness fallback `x or d` for an optional integer form field:
`None` and `0` are falsy, any other value is kept
(`routes.py`: `num_frames = num_frames or settings.default_num_frames` etc.). -/
def pyOrNat : Option Nat → Nat → Nat
  | none, d => d
  | some n, d => if n = 0 then d else n

/-- Python truthiness fallback `x or d` for an optional float form field:
`None` and `0.0` are falsy (`guidance_scale = guidance_scale or ...`). -/
def pyOrRat : Option Rat → Rat → Rat
  | none, d => d
  | some q, d => if q = 0 then d else q

/-- Width/height of a decoded image, in pixels. -/
structure ImageDims where
  width : Nat
  height : Nat
deriving DecidableEq, Repr

/-- `int(dim * (max_area / area) ** 0.5)` from `ImageProcessor.__call__`
(`wan_model.py` lines 45-47), computed in exact integer arithmetic:
for `area > 0`,
`⌊dim * √(max_area / area)⌋ = ⌊√(dim² * max_area / area)⌋ = Nat.sqrt (dim * dim * max_area / area)`
(the floor may be pushed under the square root and the division; see
`scaledDim_eq_floor_mul_sqrt` below). -/
def scaledDim (dim maxArea area : Nat) : Nat :=
  Nat.sqrt (dim * dim * maxArea / area)

/-- `ImageProcessor.__call__` (`wan_model.py` lines 23-63), restricted to the
dimension computation: if `width * height > max_area` the image is scaled by
`(max_area / area) ** 0.5` and each scaled dimension is truncated and rounded
down to a multiple of 8 (`new_width = (new_width // 8) * 8`); otherwise each
original dimension is rounded down to a multiple of 8. -/
def ImageProcessor.process (img : ImageDims) (max_area : Nat) : ImageDims :=
  let original_area := img.width * img.height
  if original_area > max_area then
    { width := scaledDim img.width max_area original_area / 8 * 8,
      height := scaledDim img.height max_area original_area / 8 * 8 }
  else
    { width := img.width / 8 * 8,
      height := img.height / 8 * 8 }

/-- Application settings (`wan_video_api/core/config.py`, class `Settings`),
restricted to the fields the route layer and utilities consult.  Field
defaults mirror the `Field(default=...)` declarations. -/
structure Settings where
  model_path : String := "/home/chenyu/.cache/modelscope/hub/models/Wan-AI/Wan2___2-TI2V-5B-Diffusers"
  device : String := "cuda"
  default_num_frames : Nat := 121
  default_num_inference_steps : Nat := 50
  default_guidance_scale : Rat := 5
  default_max_area : Nat := 901120
  max_file_size : Nat := 50000000
  allowed_extensions : List String := ["jpg", "jpeg", "png", "webp", "bmp"]
  output_dir : String := "outputs"
deriving DecidableEq, Repr

/-- Modelled from the spec: the authenticated variant's settings accessor
`Settings.get_allowed_extensions_list`, called by `validate_image_file`
(`gczm_ti_to_video/utils/file_utils.py` line 24).  The module
`gczm_ti_to_video/core/config.py` that defines it is not in the repository
snapshot; per the spec (section 3) `allowed_extensions` is "accepted as a
comma-separated string and normalized to a list" and this accessor returns
that normalized list. -/
def Settings.get_allowed_extensions_list (s : Settings) : List String :=
  s.allowed_extensions

/-- Settings of the authenticated (`gczm_ti_to_video`) variant: the shared
fields plus `require_auth` and `api_token` (spec section 3; the variant's own
`core/config.py` is not in the repository snapshot).  `api_token` is a plain
string whose Python truthiness is tested with `if not settings.api_token`
(empty string means "not configured"). -/
structure GczmSettings where
  base : Settings
  require_auth : Bool
  api_token : String
deriving DecidableEq, Repr

/-- A synthesized frame sequence, treated as an opaque artifact of the
external diffusion pipeline. -/
structure Frames where
  token : Nat
deriving DecidableEq, Repr

/-- The argument record of a call into the external diffusion pipeline
(`self.pipe(image=..., prompt=..., negative_prompt=..., height=..., width=...,
num_frames=..., guidance_scale=..., num_inference_steps=...)`,
`wan_model.py` lines 159-168). -/
structure PipelineArgs where
  image : ImageDims
  prompt : String
  negative_prompt : String
  height : Nat
  width : Nat
  num_frames : Nat
  guidance_scale : Rat
  num_inference_steps : Nat
deriving DecidableEq, Repr

/-- The external `WanImageToVideoPipeline` handle: an opaque function from
call arguments to the first generated frame sequence (`.frames[0]`). -/
structure Pipeline where
  run : PipelineArgs → Frames

/-- Engine state (`wan_video_api/models/wan_model.py`, class `WanVideoModel`):
a pipeline handle and an image-processor handle, both `None` until
`load_model` succeeds, plus the resolved device string. -/
structure WanVideoModel where
  pipe : Option Pipeline
  image_processor : Option Unit
  device : String

/-- `WanVideoModel.is_loaded` (`wan_model.py` lines 125-127):
`self.pipe is not None and self.image_processor is not None`. -/
def WanVideoModel.is_loaded (m : WanVideoModel) : Bool :=
  m.pipe.isSome && m.image_processor.isSome

/-- `WanVideoModel.generate_video` (`wan_model.py` lines 129-175): raises
`RuntimeError("Model not loaded")` unless both handles are present; otherwise
preprocesses the image against `max_area`, derives height/width from the
processed image, and invokes the pipeline.  The second component is the trace
of pipeline invocations made by the call. -/
def WanVideoModel.generate_video (m : WanVideoModel) (image : ImageDims)
    (prompt negative_prompt : String) (num_frames num_inference_steps : Nat)
    (guidance_scale : Rat) (max_area : Nat) :
    Except String Frames × List PipelineArgs :=
  match m.pipe, m.image_processor with
  | some pipe, some _ =>
    let processed := ImageProcessor.process image max_area
    let args : PipelineArgs :=
      { image := processed, prompt := prompt, negative_prompt := negative_prompt,
        height := processed.height, width := processed.width,
        num_frames := num_frames, guidance_scale := guidance_scale,
        num_inference_steps := num_inference_steps }
    (Except.ok (pipe.run args), [args])
  | _, _ =>
    -- `if not self.is_loaded(): raise RuntimeError("Model not loaded")`
    (Except.error "Model not loaded", [])

/-- The argument record of the call
`model.generate_video_from_text(prompt=..., negative_prompt=...,
num_frames=..., num_inference_steps=..., guidance_scale=..., height=...,
width=...)` made by the text route handler (`routes.py` lines 141-149). -/
structure TextGenArgs where
  prompt : String
  negative_prompt : String
  num_frames : Nat
  num_inference_steps : Nat
  guidance_scale : Rat
  height : Nat
  width : Nat
deriving DecidableEq, Repr

/-- Dynamic attribute lookup of `generate_video_from_text` on a
`WanVideoModel` instance.  The class body of `WanVideoModel`
(`wan_model.py` lines 66-184) defines exactly the methods `__init__`,
`load_model`, `is_loaded`, `generate_video` and `export_video`, and no code
in the repository assigns the attribute elsewhere, so the lookup finds
nothing: at call time Python raises
`AttributeError: 'WanVideoModel' object has no attribute 'generate_video_from_text'`. -/
def WanVideoModel.lookup_generate_video_from_text :
    Option (WanVideoModel → TextGenArgs → Except String Frames × List PipelineArgs) :=
  none

/-- An uploaded file as seen by `validate_image_file`: the client-declared
filename (`None` when the client sent none) and the declared size attribute
(`None` when the attribute is absent or `None`).  The file content is never
consulted by validation. -/
structure UploadFile where
  filename : Option String
  size : Option Nat
deriving DecidableEq, Repr

/-- `pathlib.PurePath.suffix` of a final path component: the substring from
the last dot onward, provided that dot is neither the first nor the last
character of the name (so `photo.gif ↦ .gif`, `photo.tar.gz ↦ .gz`,
`.gif ↦ empty`, `photo. ↦ empty`, `photo ↦ empty`). -/
def pathSuffix (cs : List Char) : List Char :=
  match (cs.reverse.findIdx? (fun c => c == '.')) with
  | none => []
  | some j =>
    let i := cs.length - 1 - j
    if 0 < i ∧ i < cs.length - 1 then cs.drop i else []

/-- `Path(filename).suffix.lower().lstrip(".")` from `validate_image_file`
(`file_utils.py` line 23).  Multipart filenames are plain names; the final
path component of `filename` is `filename` itself. -/
def extOf (filename : String) : String :=
  String.mk (((pathSuffix filename.data).map Char.toLower).dropWhile (fun c => c == '.'))

/-- The size guard `hasattr(file, "size") and file.size and
file.size > settings.max_file_size` (`file_utils.py` line 18): an absent
attribute, a `None` value and a declared size of `0` all skip the check. -/
def declaredSizeExceeds (size : Option Nat) (max_file_size : Nat) : Bool :=
  match size with
  | none => false
  | some n => !(n == 0) && max_file_size < n

/-- Python truthiness of the optional filename (`if file.filename:`,
`file_utils.py` line 22): `None` and the empty string are falsy. -/
def filenameTruthy : Option String → Bool
  | none => false
  | some nm => !(nm == "")

/-- `validate_image_file` (`gczm_ti_to_video/utils/file_utils.py` lines
15-28): raises `ValueError` when the declared size exceeds
`max_file_size`, then raises `ValueError` when the (truthy) filename's
extension, lower-cased, is not in the normalized allow-list; otherwise
returns silently. -/
def validate_image_file (file : UploadFile) (s : Settings) : Except String Unit :=
  if declaredSizeExceeds file.size s.max_file_size then
    Except.error ("File size exceeds maximum allowed size " ++ toString s.max_file_size)
  else if filenameTruthy file.filename then
    match file.filename with
    | some nm =>
      if (s.get_allowed_extensions_list).contains (extOf nm) then Except.ok ()
      else Except.error ("File extension " ++ extOf nm ++ " not allowed")
    | none => Except.ok ()
  else Except.ok ()

/-- A directory entry as seen through `Path.iterdir()` /`Path.stat()`:
name, byte size, creation and modification timestamps (floats, modelled as
`Rat`), and whether the entry is a regular file. -/
structure FsEntry where
  name : String
  size : Nat
  ctime : Rat
  mtime : Rat
  regularFile : Bool
deriving DecidableEq, Repr

/-- One record of the list returned by `list_output_files`
(`file_utils.py` lines 87-92). -/
structure OutputFileRecord where
  filename : String
  size : Nat
  created : Rat
  modified : Rat
deriving DecidableEq, Repr

/-- The record built for a regular file (`file_utils.py` lines 87-92). -/
def FsEntry.toRecord (e : FsEntry) : OutputFileRecord :=
  { filename := e.name, size := e.size, created := e.ctime, modified := e.mtime }

/-- `list_output_files` (`gczm_ti_to_video/utils/file_utils.py` lines 79-94).
The directory argument is `none` when `output_path.exists()` is false,
otherwise `some` of its entry listing.  Regular files are collected and the
result is `sorted(files, key=lambda x: x["created"], reverse=True)`. -/
def list_output_files : Option (List FsEntry) → List OutputFileRecord
  | none => []
  | some entries =>
    ((entries.filter (fun e => e.regularFile)).map FsEntry.toRecord).mergeSort
      (fun a b => b.created ≤ a.created)

/-- The fixed default negative prompt of both generation routes
(`routes.py`, the `Form(default=...)` literal). -/
def defaultNegativePrompt : String :=
  "色调艳丽，过曝，静态，细节模糊不清，字幕，风格，作品，画作，画面，静止，整体发灰，最差质量，低质量，JPEG压缩残留，丑陋的，残缺的，多余的手指，画得不好的手部，画得不好的脸部，畸形的，毁容的，形态畸形的肢体，手指融合，静止不动的画面，杂乱的背景，三条腿，背景人很多，倒着走"

/-- An HTTP response as far as the claims observe it: status code, the
`detail` payload of error responses, and for `FileResponse` the media type
and download filename. -/
structure Response where
  status : Nat
  detail : Option String := none
  media_type : Option String := none
  filename : Option String := none
  user : Option String := none
deriving DecidableEq, Repr

/-- The multipart form of `POST /generate_video` (`routes.py` lines 38-48)
together with the dimensions of the decoded uploaded image.  `Optional`
fields defaulting to `None` at schema level are `Option`s;
`negative_prompt` is `none` when omitted (its schema default is
`defaultNegativePrompt`). -/
structure ImageGenRequest where
  file : UploadFile
  imageDims : ImageDims
  prompt : String
  negative_prompt : Option String
  num_frames : Option Nat
  num_inference_steps : Option Nat
  guidance_scale : Option Rat
  max_area : Option Nat
deriving Repr

/-- The form of `POST /generate_video_from_text` (`routes.py` lines 114-124).
`height` and `width` carry schema-level defaults 720/1280, applied when the
field is omitted (`none`); an explicitly supplied value, including `0`, is
kept as-is. -/
structure TextGenRequest where
  prompt : String
  negative_prompt : Option String
  num_frames : Option Nat
  num_inference_steps : Option Nat
  guidance_scale : Option Rat
  height : Option Nat
  width : Option Nat
deriving Repr

/-- `POST /generate_video` handler (`wan_video_api/api/routes.py` lines
37-110).  Order of checks mirrors the source: 503 when the engine is not
loaded, 400 when upload validation raises `ValueError`, then the
`x or default` fallbacks, then the engine call; an engine error becomes a
500, success becomes a `FileResponse` with media type `video/mp4` and
filename `generated_video_{hex}.mp4`.  `hex` is the random
`uuid.uuid4().hex` token; the pipeline-invocation trace is returned
alongside the response. -/
def wanGenerateVideo (model : WanVideoModel) (s : Settings)
    (req : ImageGenRequest) (hex : String) : Response × List PipelineArgs :=
  if model.is_loaded = false then
    ({ status := 503, detail := some "Model not loaded" }, [])
  else
    match validate_image_file req.file s with
    | Except.error e => ({ status := 400, detail := some e }, [])
    | Except.ok _ =>
      let num_frames := pyOrNat req.num_frames s.default_num_frames
      let num_inference_steps := pyOrNat req.num_inference_steps s.default_num_inference_steps
      let guidance_scale := pyOrRat req.guidance_scale s.default_guidance_scale
      let max_area := pyOrNat req.max_area s.default_max_area
      match model.generate_video req.imageDims req.prompt
          (req.negative_prompt.getD defaultNegativePrompt)
          num_frames num_inference_steps guidance_scale max_area with
      | (Except.error e, tr) =>
        ({ status := 500, detail := some ("Error generating video: " ++ e) }, tr)
      | (Except.ok _frames, tr) =>
        ({ status := 200, media_type := some "video/mp4",
           filename := some ("generated_video_" ++ hex ++ ".mp4") }, tr)

/-- `POST /generate_video_from_text` handler (`wan_video_api/api/routes.py`
lines 113-174): 503 when the engine is not loaded; then the `x or default`
fallbacks; then, inside the `try` block, the call
`model.generate_video_from_text(...)`.  The attribute lookup on the model
(see `WanVideoModel.lookup_generate_video_from_text`) governs what happens:
were a method present, its frames would be exported and returned as a
`video/mp4` `FileResponse` named `generated_video_text_{hex}.mp4`
(lines 150-170); an absent attribute raises `AttributeError`, which the
blanket `except Exception` turns into a 500 (lines 172-174). -/
def wanGenerateVideoFromText (model : WanVideoModel) (s : Settings)
    (req : TextGenRequest) (hex : String) : Response × List PipelineArgs :=
  if model.is_loaded = false then
    ({ status := 503, detail := some "Model not loaded" }, [])
  else
    let args : TextGenArgs :=
      { prompt := req.prompt,
        negative_prompt := req.negative_prompt.getD defaultNegativePrompt,
        num_frames := pyOrNat req.num_frames s.default_num_frames,
        num_inference_steps := pyOrNat req.num_inference_steps s.default_num_inference_steps,
        guidance_scale := pyOrRat req.guidance_scale s.default_guidance_scale,
        height := req.height.getD 720,
        width := req.width.getD 1280 }
    match WanVideoModel.lookup_generate_video_from_text with
    | some method =>
      match method model args with
      | (Except.error e, tr) =>
        ({ status := 500, detail := some ("Error generating video from text: " ++ e) }, tr)
      | (Except.ok _frames, tr) =>
        ({ status := 200, media_type := some "video/mp4",
           filename := some ("generated_video_text_" ++ hex ++ ".mp4") }, tr)
    | none =>
      ({ status := 500,
         detail := some "Error generating video from text: WanVideoModel object has no attribute generate_video_from_text" }, [])

/-- Parsed `Authorization: Bearer <token>` credentials
(`HTTPAuthorizationCredentials`), as produced by the `HTTPBearer` header
extractor (`httpBearerExtract` below).  The dependency `verify_api_token`
annotates its parameter `Optional[HTTPAuthorizationCredentials]`
(`routes.py` line 26) and handles a `None` value, so the parameter is
modelled as `Option Credentials`; but because `security = HTTPBearer()`
(`routes.py` line 23) keeps the library default `auto_error=True`, the
extractor rejects a request with a missing or malformed header instead of
delivering `None`, so the `none` case is unreachable in the deployed
chain (see `gczmRequest`). -/
structure Credentials where
  scheme : String
  credentials : String
deriving DecidableEq, Repr

/-- An `HTTPException` raised by the auth dependency. -/
structure AuthError where
  status : Nat
  detail : String
deriving DecidableEq, Repr

/-- `verify_api_token` (`gczm_ti_to_video/api/routes.py` lines 26-56):
returns `"anonymous"` when `require_auth` is false; otherwise 401 when the
credentials are missing, 500 when no server-side token is configured
(`api_token` falsy), 401 when the presented token differs from the
configured one, and `"authenticated_user"` on a match. -/
def verify_api_token (credentials : Option Credentials) (s : GczmSettings) :
    Except AuthError String :=
  if s.require_auth = false then
    Except.ok "anonymous"
  else
    match credentials with
    | none => Except.error { status := 401, detail := "Missing authorization token" }
    | some cred =>
      if s.api_token = "" then
        Except.error { status := 500, detail := "API token not configured on server" }
      else if cred.credentials ≠ s.api_token then
        Except.error { status := 401, detail := "Invalid authorization token" }
      else
        Except.ok "authenticated_user"

/-- The five routes of the authenticated variant
(`gczm_ti_to_video/api/routes.py`), each of which declares
`user: str = Depends(verify_api_token)`. -/
inductive GczmRoute
  | health
  | generateVideo
  | generateVideoFromText
  | modelInfo
  | modelReload
deriving DecidableEq, Repr

/-- The request-scoped data a dispatched call may consume: the two
generation forms, the random hex token for the output filename, and the
outcome of `model.load_model()` for the reload route (the load touches the
filesystem and the external pipeline runtime, so its result is an input
here). -/
structure RequestData where
  imageReq : ImageGenRequest
  textReq : TextGenRequest
  hex : String
  loadResult : Except String Unit
deriving Repr

/-- The authenticated variant's route bodies, run after the auth dependency
has resolved `user` (`gczm_ti_to_video/api/routes.py`): `health` (lines
59-81) and `model/info` (lines 226-243) always answer 200 and echo the
user; the two generation bodies (lines 100-158 and 177-223) are textually
identical to the open variant's handlers; `model/reload` (lines 246-255)
answers 200 on a successful `load_model` and 500 otherwise. -/
def gczmHandleAuthed (r : GczmRoute) (user : String) (gs : GczmSettings)
    (m : WanVideoModel) (d : RequestData) : Response × List PipelineArgs :=
  match r with
  | GczmRoute.health =>
    ({ status := 200, user := some user }, [])
  | GczmRoute.generateVideo =>
    wanGenerateVideo m gs.base d.imageReq d.hex
  | GczmRoute.generateVideoFromText =>
    wanGenerateVideoFromText m gs.base d.textReq d.hex
  | GczmRoute.modelInfo =>
    ({ status := 200, user := some user }, [])
  | GczmRoute.modelReload =>
    match d.loadResult with
    | Except.ok _ => ({ status := 200, user := some user }, [])
    | Except.error e =>
      ({ status := 500, detail := some ("Error reloading model: " ++ e) }, [])

/-- The stage of the authenticated variant's request handling that runs
after the `HTTPBearer` extractor has produced its value: the
`verify_api_token` dependency runs in front of every route; an
`HTTPException` from it becomes the response, otherwise the route body runs
with the resolved user.  (`gczmRequest` below composes the extractor with
this stage; under the extractor's default `auto_error=True` the
`credentials = none` input is never produced for a header-less request,
which the extractor rejects itself.) -/
def gczmDispatch (r : GczmRoute) (credentials : Option Credentials)
    (gs : GczmSettings) (m : WanVideoModel) (d : RequestData) :
    Response × List PipelineArgs :=
  match verify_api_token credentials gs with
  | Except.error e => ({ status := e.status, detail := some e.detail }, [])
  | Except.ok user => gczmHandleAuthed r user gs m d

/-- Python `s.partition(" ")` restricted to the parts FastAPI uses
(`get_authorization_scheme_param`): the text before the first space and
the text after it; when the string contains no space the second component
is empty. -/
def pyPartitionSpace (s : String) : String × String :=
  let pre := s.data.takeWhile (fun c => c ≠ ' ')
  (String.mk pre, String.mk (s.data.drop (pre.length + 1)))

/-- The external `fastapi.security.HTTPBearer` header extractor declared as
`security = HTTPBearer()` (`gczm_ti_to_video/api/routes.py` line 23), with
the library default `auto_error=True`: it reads the raw `Authorization`
header (`none` when the request carries no such header), splits it into
scheme and credentials at the first space, raises
`HTTPException(403, "Not authenticated")` when the header, the scheme or
the credentials part is missing or empty, raises
`HTTPException(403, "Invalid authentication credentials")` when the scheme
lower-cased is not `bearer`, and otherwise yields the parsed credentials —
in particular it never yields `None`. -/
def httpBearerExtract (authorization : Option String) :
    Except AuthError Credentials :=
  let value := authorization.getD ""
  let scheme := (pyPartitionSpace value).1
  let param := (pyPartitionSpace value).2
  if value = "" ∨ scheme = "" ∨ param = "" then
    Except.error { status := 403, detail := "Not authenticated" }
  else if scheme.toLower ≠ "bearer" then
    Except.error { status := 403, detail := "Invalid authentication credentials" }
  else
    Except.ok { scheme := scheme, credentials := param }

/-- The complete per-route auth chain of the authenticated variant, from
the raw `Authorization` header of the request: first the `HTTPBearer`
extractor (whose 403 `HTTPException` becomes the response), then the
`verify_api_token` dependency and the route body (`gczmDispatch`). -/
def gczmRequest (r : GczmRoute) (authorization : Option String)
    (gs : GczmSettings) (m : WanVideoModel) (d : RequestData) :
    Response × List PipelineArgs :=
  match httpBearerExtract authorization with
  | Except.error e => ({ status := e.status, detail := some e.detail }, [])
  | Except.ok cred => gczmDispatch r (some cred) gs m d

/-- The fixed dependency list of the launcher's preflight check
(`scripts/start_server.py` lines 55-64). -/
def requiredPackages : List String :=
  ["fastapi", "uvicorn", "torch", "diffusers", "transformers", "PIL", "loguru", "pydantic"]

/-- The environment the launcher observes: which library imports succeed,
what the configured model directory contains, whether a GPU is usable, and
whether the server run is ended by a manual interrupt. -/
structure LaunchEnv where
  importOk : String → Bool
  modelDirExists : Bool
  hasModelIndex : Bool
  hasConfigJson : Bool
  hasConfigurationJson : Bool
  gpuAvailable : Bool
  gpuCheckRaises : Bool
  interrupted : Bool

/-- The launcher's command-line arguments (`start_server.py` lines 152-157). -/
structure LaunchArgs where
  host : String := "0.0.0.0"
  port : Nat := 8000
  workers : Nat := 1
  no_reload : Bool := false
  skip_checks : Bool := false
deriving DecidableEq, Repr

/-- `check_dependencies` (`start_server.py` lines 51-87): true iff every
required package imports. -/
def check_dependencies (env : LaunchEnv) : Bool :=
  requiredPackages.all env.importOk

/-- `check_model_path` (`start_server.py` lines 20-48): the model directory
must exist, contain `model_index.json`, and contain at least one of
`config.json` / `configuration.json`. -/
def check_model_path (env : LaunchEnv) : Bool :=
  env.modelDirExists && env.hasModelIndex
    && (env.hasConfigJson || env.hasConfigurationJson)

/-- `check_gpu` (`start_server.py` lines 90-112): reports the GPU and its
memory, or warns; any exception is caught and reported.  The boolean result
is returned to `main`, which discards it. -/
def check_gpu (env : LaunchEnv) : Bool :=
  if env.gpuCheckRaises then false else env.gpuAvailable

/-- `start_server` (`start_server.py` lines 115-148): sets the HOST / PORT /
WORKERS / RELOAD environment variables and blocks on the uvicorn subprocess;
both `KeyboardInterrupt` and any other exception are caught and reported, so
the function always returns normally. -/
def start_server_run (interrupted : Bool) : Unit :=
  let _ := interrupted
  ()

/-- `main` of `scripts/start_server.py` (lines 151-189), as the process exit
code: unless `--skip-checks` is given, a failed dependency check or a failed
model-path check ends the process with `sys.exit(1)`; the GPU check runs but
its result is discarded; afterwards `start_server` runs to completion and
the process exits 0. -/
def launcherMain (args : LaunchArgs) (env : LaunchEnv) : Nat :=
  if args.skip_checks = false then
    if check_dependencies env = false then 1
    else if check_model_path env = false then 1
    else
      let _gpu := check_gpu env
      let _ := start_server_run env.interrupted
      0
  else
    let _ := start_server_run env.interrupted
    0

/-- A concrete external pipeline handle, for closed-instance theorems. -/
def samplePipeline : Pipeline :=
  { run := fun _ => { token := 0 } }

/-- An engine in the loaded state (both handles present). -/
def loadedModel : WanVideoModel :=
  { pipe := some samplePipeline, image_processor := some (), device := "cuda" }

/-- An engine in the initial, unloaded state (both handles absent). -/
def unloadedModel : WanVideoModel :=
  { pipe := none, image_processor := none, device := "cpu" }

/-- A fixed stand-in for the random `uuid.uuid4().hex` token. -/
def sampleHex : String := "0123456789abcdef0123456789abcdef"

/-- The end-to-end text scenario of the spec: prompt "a red ball bouncing",
height 720, width 1280, 121 frames, 50 steps, guidance 5.0. -/
def scenarioTextReq : TextGenRequest :=
  { prompt := "a red ball bouncing", negative_prompt := none,
    num_frames := some 121, num_inference_steps := some 50,
    guidance_scale := some 5, height := some 720, width := some 1280 }

/-- A sample image-generation form with a valid upload. -/
def sampleImageReq : ImageGenRequest :=
  { file := { filename := some "test.jpg", size := some 1000 },
    imageDims := { width := 640, height := 480 },
    prompt := "a prompt", negative_prompt := none,
    num_frames := none, num_inference_steps := none,
    guidance_scale := none, max_area := none }

/-- Sample request-scoped data for dispatch of the authenticated variant. -/
def sampleRequestData : RequestData :=
  { imageReq := sampleImageReq, textReq := scenarioTextReq,
    hex := sampleHex, loadResult := Except.ok () }

/-- Authenticated-variant settings with authentication required. -/
def gsAuthOn : GczmSettings :=
  { base := {}, require_auth := true, api_token := "token123" }

/-- Authenticated-variant settings with authentication disabled. -/
def gsAuthOff : GczmSettings :=
  { base := {}, require_auth := false, api_token := "" }

/-- Helper: pin a concrete value of `Nat.sqrt` (whose implementation uses
well-founded recursion and so does not reduce definitionally). -/
theorem sqrtVal (a n : Nat) (h1 : a * a ≤ n) (h2 : n < (a + 1) * (a + 1)) :
    Nat.sqrt n = a :=
  (Nat.eq_sqrt.mpr ⟨h1, h2⟩).symm

/-- Helper: the truncated scaled width of the counterexample image. -/
theorem scaledDim_7_130000 : scaledDim 7 901120 910000 = 6 := by
  have h48 : (7 * 7 * 901120 / 910000 : Nat) = 48 := by norm_num
  unfold scaledDim
  rw [h48]
  exact sqrtVal 6 48 (by norm_num) (by norm_num)

/-- Helper: the truncated scaled dimension of the 1280 by 1280 witness. -/
theorem scaledDim_1280 : scaledDim 1280 901120 (1280 * 1280) = 949 := by
  have h : (1280 * 1280 * 901120 / (1280 * 1280) : Nat) = 901120 := by norm_num
  unfold scaledDim
  rw [h]
  exact sqrtVal 949 901120 (by norm_num) (by norm_num)

/-- Claim C1: the spec asserts that the engine exposes a working
`generate video from text` operation, so that with the engine loaded,
`POST /generate_video_from_text` with the default parameters returns
HTTP 200 with media type `video/mp4` and a `generated_video_text_*.mp4`
filename.  The code violates this: class `WanVideoModel` defines no
`generate_video_from_text` method, so the route's call raises
`AttributeError`, the blanket `except Exception` answers HTTP 500, no
`FileResponse` is produced, and the pipeline is never invoked. -/
theorem generate_video_from_text_route_returns_500 :
    (wanGenerateVideoFromText loadedModel {} scenarioTextReq sampleHex).1.status = 500 ∧
    (wanGenerateVideoFromText loadedModel {} scenarioTextReq sampleHex).1.media_type = none ∧
    (wanGenerateVideoFromText loadedModel {} scenarioTextReq sampleHex).1.filename = none ∧
    (wanGenerateVideoFromText loadedModel {} scenarioTextReq sampleHex).2 = [] ∧
    WanVideoModel.lookup_generate_video_from_text = none :=
  ⟨by rfl, by rfl, by rfl, by rfl, by rfl⟩

/-- Claim C3 counterexample: the claim asserts that for every image whose
area exceeds `max_area` the preprocessor's output dimensions are positive
multiples of 8, but a 7 by 130000 image (area 910000 > 901120) scales to
output width 0. -/
theorem imageProcessor_positive_width_fails :
    7 * 130000 > 901120 ∧
    (ImageProcessor.process { width := 7, height := 130000 } 901120).width = 0 := by
  refine ⟨by norm_num, ?_⟩
  have hw : (ImageProcessor.process { width := 7, height := 130000 } 901120).width
      = scaledDim 7 901120 910000 / 8 * 8 := rfl
  rw [hw, scaledDim_7_130000]

/-- Claim C3 (amended): for every image whose area exceeds `max_area`, the
preprocessor sets each output dimension to the original dimension scaled by
`sqrt (max_area / area)`, truncated and rounded down to a multiple of 8; the
output width and height are multiples of 8, and each is positive whenever
the truncated scaled dimension is at least 8 (a pathologically thin image
can yield dimension 0). -/
theorem imageProcessor_large_area_spec (w h M : Nat) (hM : w * h > M) :
    (ImageProcessor.process { width := w, height := h } M).width
        = scaledDim w M (w * h) / 8 * 8 ∧
    (ImageProcessor.process { width := w, height := h } M).height
        = scaledDim h M (w * h) / 8 * 8 ∧
    8 ∣ (ImageProcessor.process { width := w, height := h } M).width ∧
    8 ∣ (ImageProcessor.process { width := w, height := h } M).height ∧
    (8 ≤ scaledDim w M (w * h) →
      0 < (ImageProcessor.process { width := w, height := h } M).width) ∧
    (8 ≤ scaledDim h M (w * h) →
      0 < (ImageProcessor.process { width := w, height := h } M).height) := by
  have hproc : ImageProcessor.process { width := w, height := h } M
      = { width := scaledDim w M (w * h) / 8 * 8,
          height := scaledDim h M (w * h) / 8 * 8 } := by
    simp [ImageProcessor.process, hM]
  rw [hproc]
  refine ⟨rfl, rfl, dvd_mul_left 8 _, dvd_mul_left 8 _, ?_, ?_⟩
  · intro hw
    have h1 : 1 ≤ scaledDim w M (w * h) / 8 := (Nat.one_le_div_iff (by norm_num)).mpr hw
    exact Nat.mul_pos (by omega) (by norm_num)
  · intro hh
    have h1 : 1 ≤ scaledDim h M (w * h) / 8 := (Nat.one_le_div_iff (by norm_num)).mpr hh
    exact Nat.mul_pos (by omega) (by norm_num)

/-- Claim C3 amended witness: a 1280 by 1280 image (area above the default
`max_area`) satisfies the amended specification concretely, with positive
output width. -/
theorem imageProcessor_large_area_spec_witness :
    1280 * 1280 > 901120 ∧
    (ImageProcessor.process { width := 1280, height := 1280 } 901120).width
      = scaledDim 1280 901120 (1280 * 1280) / 8 * 8 ∧
    8 ∣ (ImageProcessor.process { width := 1280, height := 1280 } 901120).width ∧
    0 < (ImageProcessor.process { width := 1280, height := 1280 } 901120).width := by
  have hM : 1280 * 1280 > 901120 := by norm_num
  have hspec := imageProcessor_large_area_spec 1280 1280 901120 hM
  refine ⟨hM, hspec.1, hspec.2.2.1, hspec.2.2.2.2.1 ?_⟩
  rw [scaledDim_1280]
  norm_num

/-- Claim C4: for every image whose area is at most `max_area`, the
preprocessor rounds each dimension down to the nearest multiple of 8
(leaving a dimension that is already a multiple of 8 unchanged), so each
output dimension is at most the corresponding input dimension and divisible
by 8. -/
theorem imageProcessor_small_area_spec (w h M : Nat) (hM : w * h ≤ M) :
    (ImageProcessor.process { width := w, height := h } M).width = w / 8 * 8 ∧
    (ImageProcessor.process { width := w, height := h } M).height = h / 8 * 8 ∧
    (ImageProcessor.process { width := w, height := h } M).width ≤ w ∧
    (ImageProcessor.process { width := w, height := h } M).height ≤ h ∧
    8 ∣ (ImageProcessor.process { width := w, height := h } M).width ∧
    8 ∣ (ImageProcessor.process { width := w, height := h } M).height ∧
    (8 ∣ w → (ImageProcessor.process { width := w, height := h } M).width = w) ∧
    (8 ∣ h → (ImageProcessor.process { width := w, height := h } M).height = h) := by
  have hproc : ImageProcessor.process { width := w, height := h } M
      = { width := w / 8 * 8, height := h / 8 * 8 } := by
    simp [ImageProcessor.process, Nat.not_lt.mpr hM]
  rw [hproc]
  exact ⟨rfl, rfl, Nat.div_mul_le_self w 8, Nat.div_mul_le_self h 8,
    dvd_mul_left 8 _, dvd_mul_left 8 _, fun hw => Nat.div_mul_cancel hw,
    fun hh => Nat.div_mul_cancel hh⟩

/-- Claim C4 witness: a 100 by 50 image (area within the default `max_area`)
shrinks to 96 by 48, both multiples of 8 and at most the originals. -/
theorem imageProcessor_small_area_spec_witness :
    100 * 50 ≤ 901120 ∧
    (ImageProcessor.process { width := 100, height := 50 } 901120).width = 96 ∧
    (ImageProcessor.process { width := 100, height := 50 } 901120).height = 48 ∧
    8 ∣ (ImageProcessor.process { width := 100, height := 50 } 901120).width := by
  have hM : 100 * 50 ≤ 901120 := by norm_num
  have hspec := imageProcessor_small_area_spec 100 50 901120 hM
  refine ⟨hM, ?_, ?_, hspec.2.2.2.2.1⟩
  · rw [hspec.1]
  · rw [hspec.2.1]

/-- Claim C2: the claim (with the spec, sections 3, 4.6 and 8.7) says a
header-less request to any protected route fails with 401 when
`require_auth` is true and succeeds as identity "anonymous" when
`require_auth` is false.  The code contradicts its own handling:
`security = HTTPBearer()` keeps the library default `auto_error=True`, so
the extractor rejects every header-less request with
403 "Not authenticated" before `verify_api_token` runs, for both values of
`require_auth`, and no pipeline call is made.  The dependency's own body —
its `Optional` credentials annotation, its 401 "Missing authorization
token" branch, and its "anonymous" path — implements exactly the claimed
behavior, but for a header-less request that code is unreachable: the
final two conjuncts exhibit the intended-but-dead behavior. -/
theorem gczm_missing_header_rejected_403 (r : GczmRoute) (gs : GczmSettings)
    (m : WanVideoModel) (d : RequestData) :
    (gczmRequest r none gs m d).1.status = 403 ∧
    (gczmRequest r none gs m d).1.detail = some "Not authenticated" ∧
    (gczmRequest r none gs m d).2 = [] ∧
    (gs.require_auth = true →
      verify_api_token none gs
        = Except.error { status := 401, detail := "Missing authorization token" }) ∧
    (gs.require_auth = false → verify_api_token none gs = Except.ok "anonymous") := by
  refine ⟨by rfl, by rfl, by rfl, ?_, ?_⟩
  · intro hauth
    simp [verify_api_token, hauth]
  · intro hauth
    simp [verify_api_token, hauth]

/-- Claim C5: whenever the pipeline handle or the preprocessor handle is
absent, `is_loaded` is false, `generate_video` fails with the
"Model not loaded" runtime error without invoking the pipeline, and both
generation routes answer 503 with an empty pipeline trace. -/
theorem unloaded_engine_spec (m : WanVideoModel)
    (hm : m.pipe = none ∨ m.image_processor = none)
    (s : Settings) (req : ImageGenRequest) (treq : TextGenRequest) (hex : String) :
    m.is_loaded = false ∧
    (∀ img prompt np nf steps gsc ma,
      m.generate_video img prompt np nf steps gsc ma
        = (Except.error "Model not loaded", [])) ∧
    wanGenerateVideo m s req hex
      = ({ status := 503, detail := some "Model not loaded" }, []) ∧
    wanGenerateVideoFromText m s treq hex
      = ({ status := 503, detail := some "Model not loaded" }, []) := by
  have hload : m.is_loaded = false := by
    rcases hm with h | h <;> simp [WanVideoModel.is_loaded, h]
  refine ⟨hload, ?_, ?_, ?_⟩
  · intro img prompt np nf steps gsc ma
    rcases m with ⟨pipe, proc, dev⟩
    rcases hm with h | h
    · simp only at h
      subst h
      rfl
    · simp only at h
      subst h
      rcases pipe with _ | p <;> rfl
  · simp [wanGenerateVideo, hload]
  · simp [wanGenerateVideoFromText, hload]

/-- Claim C5 witness: the initial engine state (both handles absent) makes
`generate_video` fail without a pipeline call and both routes answer 503. -/
theorem unloaded_engine_spec_witness :
    unloadedModel.is_loaded = false ∧
    unloadedModel.generate_video { width := 640, height := 480 } "p" "" 121 50 5 901120
      = (Except.error "Model not loaded", []) ∧
    (wanGenerateVideo unloadedModel {} sampleImageReq sampleHex).1.status = 503 ∧
    (wanGenerateVideoFromText unloadedModel {} scenarioTextReq sampleHex).1.status = 503 := by
  have h := unloaded_engine_spec unloadedModel (Or.inl rfl) {} sampleImageReq scenarioTextReq sampleHex
  refine ⟨h.1, h.2.1 _ _ _ _ _ _ _, ?_, ?_⟩
  · rw [h.2.2.1]
  · rw [h.2.2.2]

/-- Claim C6: upload validation fails (with the `ValueError` the route maps
to InvalidInput / 400) exactly when the declared size exceeds
`max_file_size`, or when a present, non-empty filename's lower-cased
extension is outside the normalized allow-list; it succeeds otherwise.
In particular `photo.gif` against the allow-list jpg/png fails regardless
of size, and `photo.jpg` with declared size 1001 against limit 1000 fails. -/
theorem validate_upload_iff (f : UploadFile) (s : Settings) :
    validate_image_file f s = Except.ok () ↔
      (¬ ∃ n, f.size = some n ∧ s.max_file_size < n) ∧
      (∀ nm, f.filename = some nm → nm ≠ "" →
        extOf nm ∈ s.get_allowed_extensions_list) := by
  rcases f with ⟨fn, sz⟩
  rcases sz with _ | n <;> rcases fn with _ | nm <;>
    simp [validate_image_file, declaredSizeExceeds, filenameTruthy]
  · omega
  · split_ifs with h1 h2 h3 <;> simp_all <;> omega

/-- Claim C9: validation is skipped entirely for an upload whose filename is
absent or empty and whose declared size attribute is absent, `None`, or `0`:
such an upload always validates successfully. -/
theorem validate_upload_skips_checks (f : UploadFile) (s : Settings)
    (hname : f.filename = none ∨ f.filename = some "")
    (hsize : f.size = none ∨ f.size = some 0) :
    validate_image_file f s = Except.ok () := by
  rcases f with ⟨fn, sz⟩
  simp only at hname hsize
  rcases hname with h1 | h1 <;> rcases hsize with h2 | h2 <;> subst h1 <;> subst h2 <;> rfl

/-- Claim C9 witness: an upload with empty filename and declared size `0`
validates successfully against the default settings. -/
theorem validate_upload_skips_checks_witness :
    validate_image_file { filename := some "", size := some 0 } {} = Except.ok () :=
  validate_upload_skips_checks { filename := some "", size := some 0 } {}
    (Or.inr rfl) (Or.inr rfl)

/-- Claim C7: `list_output_files` returns the empty list when the directory
does not exist, and for an existing directory returns exactly its regular
files (as filename/size/created/modified records) sorted by creation time
in descending order. -/
theorem list_output_files_spec :
    list_output_files none = ([] : List OutputFileRecord) ∧
    ∀ entries : List FsEntry,
      (list_output_files (some entries)).Perm
        ((entries.filter (fun e => e.regularFile)).map FsEntry.toRecord) ∧
      (list_output_files (some entries)).Pairwise
        (fun a b => b.created ≤ a.created) := by
  refine ⟨rfl, fun entries => ⟨?_, ?_⟩⟩
  · exact List.mergeSort_perm _ _
  · have h : (((entries.filter (fun e => e.regularFile)).map FsEntry.toRecord).mergeSort
        (fun a b => decide (b.created ≤ a.created))).Pairwise
        (fun a b => decide (b.created ≤ a.created) = true) :=
      List.sorted_mergeSort
        (fun a b c hab hbc => by
          simp only [decide_eq_true_eq] at *
          exact le_trans hbc hab)
        (fun a b => by simp [le_total])
        ((entries.filter (fun e => e.regularFile)).map FsEntry.toRecord)
    exact h.imp (fun hab => of_decide_eq_true hab)

/-- Claim C8: with preflight checks not skipped, the launcher exits 1 exactly
when some required library fails to import or the configured model directory
is missing (or lacks `model_index.json`, or lacks both `config.json` and
`configuration.json`); the exit code is always 0 or 1; and the GPU check
outcome and a manual interruption of the server never change the exit code. -/
theorem launcher_exit_code_spec (a : LaunchArgs) (e : LaunchEnv) :
    (launcherMain a e = 1 ↔
      a.skip_checks = false ∧
        ((∃ p ∈ requiredPackages, e.importOk p = false) ∨
          e.modelDirExists = false ∨ e.hasModelIndex = false ∨
          (e.hasConfigJson = false ∧ e.hasConfigurationJson = false))) ∧
    (launcherMain a e = 0 ∨ launcherMain a e = 1) ∧
    (∀ g r i, launcherMain a
        { e with gpuAvailable := g, gpuCheckRaises := r, interrupted := i }
        = launcherMain a e) := by
  rcases e with ⟨imp, dir, idx, cfg, cfgn, gpu, gr, intr⟩
  have hiff : (∃ p ∈ requiredPackages, imp p = false) ↔
      ¬ (requiredPackages.all imp = true) := by
    simp [List.all_eq_true]
  refine ⟨?_, ?_, ?_⟩
  · by_cases hs : a.skip_checks <;> by_cases hd : requiredPackages.all imp = true <;>
      rcases dir <;> rcases idx <;> rcases cfg <;> rcases cfgn <;>
        simp [launcherMain, check_dependencies, check_model_path, check_gpu,
          start_server_run, hs, hd, hiff]
  · by_cases hs : a.skip_checks <;> by_cases hd : requiredPackages.all imp = true <;>
      rcases dir <;> rcases idx <;> rcases cfg <;> rcases cfgn <;>
        simp [launcherMain, check_dependencies, check_model_path, hs, hd]
  · intro g r i
    rfl

/-- Claim C10: in both generation route handlers (open and authenticated
variant), a numeric form field supplied as `0` (`num_frames`,
`num_inference_steps`, `max_area`) or `0.0` (`guidance_scale`) is replaced
by the configured default via the Python `x or default` fallback, producing
exactly the same response and the same engine/pipeline call as omitting the
field. -/
theorem zero_form_fields_use_defaults (m : WanVideoModel) (s : Settings)
    (req : ImageGenRequest) (hex : String)
    (cred : Option Credentials) (gs : GczmSettings) (d : RequestData) :
    (wanGenerateVideo m s { req with num_frames := some 0 } hex
      = wanGenerateVideo m s { req with num_frames := none } hex) ∧
    (wanGenerateVideo m s { req with num_inference_steps := some 0 } hex
      = wanGenerateVideo m s { req with num_inference_steps := none } hex) ∧
    (wanGenerateVideo m s { req with guidance_scale := some 0 } hex
      = wanGenerateVideo m s { req with guidance_scale := none } hex) ∧
    (wanGenerateVideo m s { req with max_area := some 0 } hex
      = wanGenerateVideo m s { req with max_area := none } hex) ∧
    (gczmDispatch GczmRoute.generateVideo cred gs m
        { d with imageReq := { d.imageReq with num_frames := some 0 } }
      = gczmDispatch GczmRoute.generateVideo cred gs m
        { d with imageReq := { d.imageReq with num_frames := none } }) ∧
    (gczmDispatch GczmRoute.generateVideo cred gs m
        { d with imageReq := { d.imageReq with num_inference_steps := some 0 } }
      = gczmDispatch GczmRoute.generateVideo cred gs m
        { d with imageReq := { d.imageReq with num_inference_steps := none } }) ∧
    (gczmDispatch GczmRoute.generateVideo cred gs m
        { d with imageReq := { d.imageReq with guidance_scale := some 0 } }
      = gczmDispatch GczmRoute.generateVideo cred gs m
        { d with imageReq := { d.imageReq with guidance_scale := none } }) ∧
    (gczmDispatch GczmRoute.generateVideo cred gs m
        { d with imageReq := { d.imageReq with max_area := some 0 } }
      = gczmDispatch GczmRoute.generateVideo cred gs m
        { d with imageReq := { d.imageReq with max_area := none } }) := by
  refine ⟨?_, ?_, ?_, ?_, ?_, ?_, ?_, ?_⟩
  · simp [wanGenerateVideo, pyOrNat, pyOrRat]
  · simp [wanGenerateVideo, pyOrNat, pyOrRat]
  · simp [wanGenerateVideo, pyOrNat, pyOrRat]
  · simp [wanGenerateVideo, pyOrNat, pyOrRat]
  · cases hv : verify_api_token cred gs <;>
      simp [gczmDispatch, gczmHandleAuthed, hv, wanGenerateVideo, pyOrNat, pyOrRat]
  · cases hv : verify_api_token cred gs <;>
      simp [gczmDispatch, gczmHandleAuthed, hv, wanGenerateVideo, pyOrNat, pyOrRat]
  · cases hv : verify_api_token cred gs <;>
      simp [gczmDispatch, gczmHandleAuthed, hv, wanGenerateVideo, pyOrNat, pyOrRat]
  · cases hv : verify_api_token cred gs <;>
      simp [gczmDispatch, gczmHandleAuthed, hv, wanGenerateVideo, pyOrNat, pyOrRat]

/-- Helper: the natural floor of a real square root may be computed under the
floor: `⌊√x⌋ = Nat.sqrt ⌊x⌋` for nonnegative `x`. -/
theorem natFloor_sqrt (x : ℝ) (hx : 0 ≤ x) :
    ⌊Real.sqrt x⌋₊ = Nat.sqrt ⌊x⌋₊ := by
  apply le_antisymm
  · rw [Nat.le_sqrt]
    apply Nat.le_floor
    push_cast
    have h := Nat.floor_le (Real.sqrt_nonneg x)
    calc ((⌊Real.sqrt x⌋₊ : ℝ) * ⌊Real.sqrt x⌋₊)
        ≤ Real.sqrt x * Real.sqrt x :=
          mul_le_mul h h (by positivity) (Real.sqrt_nonneg x)
      _ = x := Real.mul_self_sqrt hx
  · apply Nat.le_floor
    have hm : ((Nat.sqrt ⌊x⌋₊ : ℕ) : ℝ) = Real.sqrt (((Nat.sqrt ⌊x⌋₊ : ℕ) : ℝ) ^ 2) :=
      (Real.sqrt_sq (by positivity)).symm
    rw [hm]
    apply Real.sqrt_le_sqrt
    have h1 : Nat.sqrt ⌊x⌋₊ * Nat.sqrt ⌊x⌋₊ ≤ ⌊x⌋₊ := Nat.sqrt_le ⌊x⌋₊
    calc ((Nat.sqrt ⌊x⌋₊ : ℕ) : ℝ) ^ 2
        = ((Nat.sqrt ⌊x⌋₊ * Nat.sqrt ⌊x⌋₊ : ℕ) : ℝ) := by push_cast; ring
      _ ≤ (⌊x⌋₊ : ℝ) := by exact_mod_cast h1
      _ ≤ x := Nat.floor_le hx

/-- Bridge: `scaledDim` computes in exact integer arithmetic the value
`int(dim * sqrt(max_area / area))` of `ImageProcessor.__call__` read in
exact real arithmetic: `Nat.sqrt (d * d * M / A) = ⌊d * √(M / A)⌋` for
`A > 0`.  (The Python source computes with IEEE-754 doubles; this
development models that computation by its exact-real reading.) -/
theorem scaledDim_eq_floor_mul_sqrt (d M A : Nat) (hA : 0 < A) :
    scaledDim d M A = ⌊(d : ℝ) * Real.sqrt ((M : ℝ) / (A : ℝ))⌋₊ := by
  have h1 : (d : ℝ) * Real.sqrt ((M : ℝ) / (A : ℝ))
      = Real.sqrt (((d * d * M : ℕ) : ℝ) / (A : ℝ)) := by
    rw [show (((d * d * M : ℕ) : ℝ) / (A : ℝ)) = ((d : ℝ)) ^ 2 * ((M : ℝ) / (A : ℝ)) by
      push_cast; ring]
    rw [Real.sqrt_mul (by positivity) _, Real.sqrt_sq (by positivity)]
  rw [h1, natFloor_sqrt _ (by positivity), Nat.floor_div_nat, Nat.floor_natCast]
  rfl
